import Mathlib

/-!
# Verification of the RayTracer frame-orchestration core

Shallow embedding of `src/RayTracer.cpp` (the frame driver of an interactive,
progressively-refining path tracer) and proofs about its accumulation state
machine, scene hot-swap sequencing, benchmark controller and input handling.

Modelling conventions:
* `uint32_t` values are `ℕ` with explicit `% 2 ^ 32` where overflow/wraparound
  matters (the sample counters take part in unsigned subtraction, so wrap is
  modelled faithfully).
* `double` time values and the float-valued optical settings are modelled as
  `ℚ`; only exact comparisons and divisions appear in the embedded logic.
* Collaborator calls (Vulkan device, swapchain, acceleration structures, UI,
  window) are side effects outside this core; where their ordering matters the
  frame driver is given an event trace, and where their results feed back into
  the core (camera controller, UI focus queries, registry) they are modelled as
  explicit inputs.
* A fatal error (out-of-bounds registry access in `LoadScene`) is modelled with
  `Except`: `.error s` means the program aborts while the state is still `s`.
-/

namespace RayTracer

/-- The scene registry `SceneList::AllScenes`.
Modelled from the spec: `SceneList` is declared outside these sources; per the
spec it is a static ordered list of entries whose factory produces geometry and
texture handles plus a `CameraInitialState`.  Geometry/texture handles are
opaque to this core, so an entry is reduced to the camera state it yields and
whether the factory supplies any textures. -/
structure SceneEntry where
  FieldOfView : ℚ
  Aperture : ℚ
  FocusDistance : ℚ
  GammaCorrection : Bool
  HasSky : Bool
  ModelView : ℤ
  hasTextures : Bool
deriving DecidableEq, Repr

/-- `CameraInitialState`: per-scene default camera pose and optical parameters,
produced by the scene factory on load (field of view, aperture, focus distance,
gamma, sky flag, initial model-view pose). The pose is opaque to this core and
modelled as an integer identifier. -/
structure CameraInitialState where
  FieldOfView : ℚ
  Aperture : ℚ
  FocusDistance : ℚ
  GammaCorrection : Bool
  HasSky : Bool
  ModelView : ℤ
deriving DecidableEq, Repr

/-- `UserSettings`: the user-mutable render settings read each frame.
Modelled from the spec: `UserSettings.hpp` is outside these sources; the field
list follows the spec (§3 RenderSettings): ray-traced toggle, per-frame and
max-total sample counts, bounce count, aperture, focus distance, field of view,
gamma, accumulate flag, benchmark flags, scene index, plus the pure UI toggles
flipped by `OnKey`.  The sample counts are `uint32_t` (they take part in the
`glm::clamp(..., 0u, ...)` expression of `DrawFrame`), `SceneIndex` is a C++
`int` (it is cast to `uint32_t`/`size_t` at its uses). -/
structure UserSettings where
  Benchmark : Bool
  BenchmarkNextScenes : Bool
  BenchmarkMaxTime : ℚ
  SceneIndex : ℤ
  IsRayTraced : Bool
  AccumulateRays : Bool
  NumberOfSamples : ℕ
  MaxNumberOfSamples : ℕ
  NumberOfBounces : ℕ
  FieldOfView : ℚ
  Aperture : ℚ
  FocusDistance : ℚ
  GammaCorrection : Bool
  ShowSettings : Bool
  ShowOverlay : Bool
deriving DecidableEq, Repr

/-- `UserSettings::RequiresAccumulationReset(prev)`.
Modelled from the spec: the member function is declared in `UserSettings.hpp`,
outside these sources; per the spec (§4.1) it reports whether any settings
field that affects the rendered image differs from the previous frame's
snapshot — aperture, focus distance, field of view, bounce count, gamma,
ray-traced toggle, scene index — and never the pure UI toggles or the sample
budget fields (the spec's invariant discussion notes that `MaxNumberOfSamples`
may change without triggering a reset). -/
def UserSettings.RequiresAccumulationReset (cur prev : UserSettings) : Bool :=
  cur.Aperture ≠ prev.Aperture ||
  cur.FocusDistance ≠ prev.FocusDistance ||
  cur.FieldOfView ≠ prev.FieldOfView ||
  cur.NumberOfBounces ≠ prev.NumberOfBounces ||
  cur.GammaCorrection ≠ prev.GammaCorrection ||
  cur.IsRayTraced ≠ prev.IsRayTraced ||
  cur.SceneIndex ≠ prev.SceneIndex

/-- The mutable state of the `RayTracer` application object (member fields of
`RayTracer` in `RayTracer.cpp`/`RayTracer.hpp`, with the camera controller's
pose inlined as an opaque integer). `sceneLoaded` stands for the owned scene
handle `scene_` (the identity of the loaded registry entry). -/
structure RayTracerState where
  userSettings : UserSettings
  previousSettings : UserSettings
  cameraInitialSate : CameraInitialState
  cameraPose : ℤ
  sceneIndex : ℕ
  sceneLoaded : Option ℕ
  totalNumberOfSamples : ℕ
  numberOfSamples : ℕ
  resetAccumulation : Bool
  isWireFrame : Bool
  time : ℚ
  sceneInitialTime : ℚ
  periodInitialTime : ℚ
  periodTotalFrames : ℕ
deriving DecidableEq, Repr

/-- `static_cast<uint32_t>` of a C++ `int`: reduction modulo `2 ^ 32`. -/
def uint32OfInt (i : ℤ) : ℕ :=
  (i % (2 : ℤ) ^ 32).toNat

/-- `static_cast<size_t>` of a C++ `int`: reduction modulo `2 ^ 64`. -/
def sizeTOfInt (i : ℤ) : ℕ :=
  (i % (2 : ℤ) ^ 64).toNat

/-- `uint32_t` subtraction `a - b` (wraparound semantics, both operands
already reduced below `2 ^ 32`). -/
def usub32 (a b : ℕ) : ℕ :=
  (a + 2 ^ 32 - b) % 2 ^ 32

/-- `glm::clamp(x, lo, hi) = min(max(x, lo), hi)` on `uint32_t` operands. -/
def glmClamp (x lo hi : ℕ) : ℕ :=
  min (max x lo) hi

/-- `static_cast<uint64_t>` of a non-negative `double`: truncation to the
integer part.  (The source only ever casts elapsed-time quotients, which are
non-negative in every reachable state; a negative argument would be undefined
behaviour in C++ and is mapped to `0` here.) -/
def uint64OfRat (q : ℚ) : ℕ :=
  ⌊q⌋.toNat

/-- The collaborator calls issued by `RayTracer::DrawFrame`, in program order,
recorded as an event trace. `appDrawFrame` is the delegation to
`Application::DrawFrame()` (which performs the actual rendering). -/
inductive FrameEvent where
  | waitIdle
  | deleteSwapChain
  | deleteAccelerationStructures
  | loadScene
  | createAccelerationStructures
  | createSwapChain
  | appDrawFrame
deriving DecidableEq, Repr

/-- `RayTracer::CreateSwapChain` (the part acting on this core's state):
recreates the UI for the new swapchain and sets `resetAccumulation_ = true`. -/
def createSwapChain (s : RayTracerState) : RayTracerState :=
  { s with resetAccumulation := true }

/-- `RayTracer::LoadScene(sceneIndex)`: reads the registry entry (a fatal
error if out of bounds — `.error s` returns the untouched state at the abort),
builds the scene (substituting a placeholder texture when the factory supplies
none), replaces the owned scene handle, records the active index, copies the
scene's optical parameters into the user settings, resets the camera
controller to the initial pose, zeroes the benchmark period frame counter and
raises the accumulation force-reset flag. -/
def loadScene (registry : List SceneEntry) (s : RayTracerState) (sceneIndex : ℕ) :
    Except RayTracerState RayTracerState :=
  match registry.get? sceneIndex with
  | none => .error s
  | some entry =>
    let cameraInitialSate : CameraInitialState :=
      { FieldOfView := entry.FieldOfView
        Aperture := entry.Aperture
        FocusDistance := entry.FocusDistance
        GammaCorrection := entry.GammaCorrection
        HasSky := entry.HasSky
        ModelView := entry.ModelView }
    .ok { s with
      cameraInitialSate := cameraInitialSate
      sceneLoaded := some sceneIndex
      sceneIndex := sceneIndex
      userSettings := { s.userSettings with
        FieldOfView := entry.FieldOfView
        Aperture := entry.Aperture
        FocusDistance := entry.FocusDistance
        GammaCorrection := entry.GammaCorrection }
      cameraPose := entry.ModelView
      periodTotalFrames := 0
      resetAccumulation := true }

/-- Lines 99–106 of `RayTracer::DrawFrame`: reset the accumulated sample count
when the force-reset flag is up, the settings changed in an image-affecting
field, or the accumulate flag is off; the force-reset flag is consumed. -/
def resetCheck (s : RayTracerState) : RayTracerState :=
  if s.resetAccumulation ||
      s.userSettings.RequiresAccumulationReset s.previousSettings ||
      !s.userSettings.AccumulateRays then
    { s with totalNumberOfSamples := 0, resetAccumulation := false }
  else
    s

/-- Line 108 of `RayTracer::DrawFrame`: snapshot the settings for the next
frame's change detection. -/
def snapshotSettings (s : RayTracerState) : RayTracerState :=
  { s with previousSettings := s.userSettings }

/-- Lines 110–112 of `RayTracer::DrawFrame`: the sample-budget computation
`numberOfSamples_ = glm::clamp(MaxNumberOfSamples - totalNumberOfSamples_, 0u,
NumberOfSamples); totalNumberOfSamples_ += numberOfSamples_;` in `uint32_t`
arithmetic. -/
def sampleBudget (s : RayTracerState) : RayTracerState :=
  let n := glmClamp (usub32 s.userSettings.MaxNumberOfSamples s.totalNumberOfSamples)
    0 s.userSettings.NumberOfSamples
  { s with numberOfSamples := n
           totalNumberOfSamples := (s.totalNumberOfSamples + n) % 2 ^ 32 }

/-- `RayTracer::DrawFrame`: on a scene-index mismatch, wait for the device to
go idle, tear down the swapchain-dependent resources and acceleration
structures, load the new scene, rebuild the acceleration structures and the
swapchain, and return without rendering; otherwise run the accumulation reset
check, snapshot the settings, compute the sample budget and delegate to
`Application::DrawFrame`.  The returned trace lists the collaborator calls in
program order; `.error` means `LoadScene` hit its fatal out-of-bounds abort. -/
def drawFrame (registry : List SceneEntry) (s : RayTracerState) :
    Except (RayTracerState × List FrameEvent) (RayTracerState × List FrameEvent) :=
  if s.sceneIndex ≠ uint32OfInt s.userSettings.SceneIndex then
    match loadScene registry s (uint32OfInt s.userSettings.SceneIndex) with
    | .error e =>
      .error (e, [.waitIdle, .deleteSwapChain, .deleteAccelerationStructures])
    | .ok s1 =>
      .ok (createSwapChain s1,
        [.waitIdle, .deleteSwapChain, .deleteAccelerationStructures, .loadScene,
         .createAccelerationStructures, .createSwapChain])
  else
    .ok (sampleBudget (snapshotSettings (resetCheck s)), [.appDrawFrame])

/-- The camera controller `modelViewController_`.
Modelled from the spec: `ModelViewController` lives outside these sources; per
the spec (§4.4) it consumes discrete key/button/position events and a per-frame
time delta, producing an updated pose and a boolean pose-changed signal.  Its
transition functions are kept abstract: each is a pure function of the current
pose (an opaque integer) and the event data, returning the new pose and the
changed flag. -/
structure ModelViewController where
  UpdateCamera : ℤ → ℚ → ℚ → ℤ × Bool
  OnKey : ℤ → ℤ → ℤ → ℤ → ℤ → ℤ × Bool
  OnCursorPosition : ℤ → ℚ → ℚ → ℤ × Bool
  OnMouseButton : ℤ → ℤ → ℤ → ℤ → ℤ × Bool

/-- Console/window observables of `CheckAndUpdateBenchmarkState`: whether a
period frame-rate report was printed this frame, and whether `Window().Close()`
was requested. -/
structure BenchOut where
  reported : Bool
  closeRequested : Bool
deriving DecidableEq, Repr

/-- `RayTracer::CheckAndUpdateBenchmarkState(prevTime)`: no-op unless
benchmark mode is on; on the first frame of a scene (`periodTotalFrames_ == 0`)
latch the scene and period start timestamps; emit a frame-rate report when the
integer-divided elapsed period time differs between the previous and the
current frame, restarting the period window at the current time; then advance
the requested scene index and possibly request window close when the scene
time limit is exceeded or the sample budget has reached zero.  The second call
to `Window().Time()` in the time-limit test returns the same frame timestamp
as `time_`. -/
def checkAndUpdateBenchmarkState (registry : List SceneEntry) (prevTime : ℚ)
    (s : RayTracerState) : RayTracerState × BenchOut :=
  if !s.userSettings.Benchmark then
    (s, ⟨false, false⟩)
  else
    let s1 := if s.periodTotalFrames = 0 then
        { s with sceneInitialTime := s.time, periodInitialTime := s.time }
      else s
    let period : ℚ := 5
    let prevTotalTime := prevTime - s1.periodInitialTime
    let totalTime := s1.time - s1.periodInitialTime
    let reported := s1.periodTotalFrames != 0 &&
      uint64OfRat (prevTotalTime / period) != uint64OfRat (totalTime / period)
    let s2 := if reported then
        { s1 with periodInitialTime := s1.time, periodTotalFrames := 0 }
      else s1
    let s3 := { s2 with periodTotalFrames := s2.periodTotalFrames + 1 }
    let timeLimitReached := s3.periodTotalFrames != 0 &&
      decide (s3.time - s3.sceneInitialTime > s3.userSettings.BenchmarkMaxTime)
    let sampleLimitReached := s3.numberOfSamples == 0
    if timeLimitReached || sampleLimitReached then
      let closeRequested := !s3.userSettings.BenchmarkNextScenes ||
        sizeTOfInt s3.userSettings.SceneIndex == registry.length - 1
      ({ s3 with userSettings :=
          { s3.userSettings with SceneIndex := s3.userSettings.SceneIndex + 1 } },
       ⟨reported, closeRequested⟩)
    else
      (s3, ⟨reported, false⟩)

/-- `RayTracer::Render(commandBuffer, imageIndex)` (the part acting on this
core's state): record the frame time and delta, overwrite the accumulation
reset flag with the camera controller's pose-changed output, and run the
benchmark bookkeeping.  The subsequent ray-traced/rasterized dispatch and the
UI render are collaborator calls that do not touch this state. -/
def render (cb : ModelViewController) (registry : List SceneEntry) (windowTime : ℚ)
    (s : RayTracerState) : RayTracerState × BenchOut :=
  let prevTime := s.time
  let s1 := { s with time := windowTime }
  let timeDelta := windowTime - prevTime
  let upd := cb.UpdateCamera s1.cameraPose 10 timeDelta
  let s2 := { s1 with cameraPose := upd.1, resetAccumulation := upd.2 }
  checkAndUpdateBenchmarkState registry prevTime s2

def GLFW_PRESS : ℤ := 1
def GLFW_KEY_ESCAPE : ℤ := 256
def GLFW_KEY_F1 : ℤ := 290
def GLFW_KEY_F2 : ℤ := 291
def GLFW_KEY_R : ℤ := 82
def GLFW_KEY_P : ℤ := 80

/-- `RayTracer::OnKey(key, scancode, action, mods)`: ignored entirely only when
the UI overlay claims the keyboard; otherwise on a press, Escape requests
window close (the returned `Bool`), the settings toggle switches apply only
outside benchmark mode, and the event is always forwarded to the camera
controller, whose pose-changed output is OR-ed into the reset flag. -/
def onKey (cb : ModelViewController) (wantsToCaptureKeyboard : Bool)
    (key scancode action mods : ℤ) (s : RayTracerState) : RayTracerState × Bool :=
  if wantsToCaptureKeyboard then
    (s, false)
  else
    let closeRequested := if action = GLFW_PRESS ∧ key = GLFW_KEY_ESCAPE then true else false
    let s1 :=
      if action = GLFW_PRESS ∧ s.userSettings.Benchmark = false then
        if key = GLFW_KEY_F1 then
          { s with userSettings :=
              { s.userSettings with ShowSettings := !s.userSettings.ShowSettings } }
        else if key = GLFW_KEY_F2 then
          { s with userSettings :=
              { s.userSettings with ShowOverlay := !s.userSettings.ShowOverlay } }
        else if key = GLFW_KEY_R then
          { s with userSettings :=
              { s.userSettings with IsRayTraced := !s.userSettings.IsRayTraced } }
        else if key = GLFW_KEY_P then
          { s with isWireFrame := !s.isWireFrame }
        else s
      else s
    let k := cb.OnKey s1.cameraPose key scancode action mods
    ({ s1 with cameraPose := k.1, resetAccumulation := s1.resetAccumulation || k.2 },
     closeRequested)

/-- `RayTracer::OnCursorPosition(xpos, ypos)`: ignored while benchmark mode is
active or the UI overlay claims keyboard or mouse focus; otherwise forwarded
to the camera controller, whose pose-changed output is OR-ed into the reset
flag. -/
def onCursorPosition (cb : ModelViewController)
    (wantsToCaptureKeyboard wantsToCaptureMouse : Bool) (xpos ypos : ℚ)
    (s : RayTracerState) : RayTracerState :=
  if s.userSettings.Benchmark || wantsToCaptureKeyboard || wantsToCaptureMouse then
    s
  else
    let c := cb.OnCursorPosition s.cameraPose xpos ypos
    { s with cameraPose := c.1, resetAccumulation := s.resetAccumulation || c.2 }

/-- `RayTracer::OnMouseButton(button, action, mods)`: ignored while benchmark
mode is active or the UI overlay claims mouse focus; otherwise forwarded to
the camera controller, whose pose-changed output is OR-ed into the reset
flag. -/
def onMouseButton (cb : ModelViewController) (wantsToCaptureMouse : Bool)
    (button action mods : ℤ) (s : RayTracerState) : RayTracerState :=
  if s.userSettings.Benchmark || wantsToCaptureMouse then
    s
  else
    let m := cb.OnMouseButton s.cameraPose button action mods
    { s with cameraPose := m.1, resetAccumulation := s.resetAccumulation || m.2 }

/-- A simulated benchmark run over a list of frame timestamps: each frame, as
in `Render`, passes the previous frame's timestamp as `prevTime` and the new
timestamp as `time_` to `CheckAndUpdateBenchmarkState`.  Returns the final
state, the number of period reports emitted and the number of window-close
requests. -/
def benchRun (registry : List SceneEntry) (s : RayTracerState) :
    List ℚ → RayTracerState × ℕ × ℕ
  | [] => (s, 0, 0)
  | t :: ts =>
    let step := checkAndUpdateBenchmarkState registry s.time { s with time := t }
    let rest := benchRun registry step.1 ts
    (rest.1,
     (if step.2.reported then 1 else 0) + rest.2.1,
     (if step.2.closeRequested then 1 else 0) + rest.2.2)

/-- The successor state of one call to `DrawFrame`, for iterating frames (on a
fatal abort the state at the abort is kept; no abort occurs in the runs below,
which never change scene). -/
def drawFrameStep (registry : List SceneEntry) (s : RayTracerState) : RayTracerState :=
  match drawFrame registry s with
  | .ok r => r.1
  | .error r => r.1

/-! ### Concrete fixtures used by the scenario and counterexample theorems -/

/-- A baseline settings record: not benchmarking, ray tracing on, accumulation
on, 10 samples per frame, 100 samples maximum. -/
def baseSettings : UserSettings :=
  { Benchmark := false, BenchmarkNextScenes := false, BenchmarkMaxTime := 60
    SceneIndex := 0, IsRayTraced := true, AccumulateRays := true
    NumberOfSamples := 10, MaxNumberOfSamples := 100, NumberOfBounces := 8
    FieldOfView := 20, Aperture := 0, FocusDistance := 10, GammaCorrection := false
    ShowSettings := true, ShowOverlay := true }

/-- A baseline per-scene camera configuration. -/
def baseCamera : CameraInitialState :=
  { FieldOfView := 20, Aperture := 0, FocusDistance := 10, GammaCorrection := false
    HasSky := false, ModelView := 0 }

/-- A single-scene registry whose entry matches `baseCamera`. -/
def baseRegistry : List SceneEntry :=
  [{ FieldOfView := 20, Aperture := 0, FocusDistance := 10, GammaCorrection := false
     HasSky := false, ModelView := 0, hasTextures := true }]

/-- A baseline application state: scene 0 loaded and matching the requested
index, no samples accumulated, no pending reset, at time zero. -/
def baseState : RayTracerState :=
  { userSettings := baseSettings, previousSettings := baseSettings
    cameraInitialSate := baseCamera, cameraPose := 0, sceneIndex := 0
    sceneLoaded := some 0, totalNumberOfSamples := 0, numberOfSamples := 0
    resetAccumulation := false, isWireFrame := false, time := 0
    sceneInitialTime := 0, periodInitialTime := 0, periodTotalFrames := 0 }

/-- A state mid-epoch: 100 samples already accumulated, but the user has
lowered `MaxNumberOfSamples` to 50 since the snapshot (a change that does not
trigger an accumulation reset). -/
def loweredMaxState : RayTracerState :=
  { baseState with
    totalNumberOfSamples := 100
    userSettings := { baseSettings with MaxNumberOfSamples := 50 } }

/-- A camera controller whose transitions never move the pose and never report
a change. -/
def cameraStill : ModelViewController :=
  { UpdateCamera := fun p _ _ => (p, false)
    OnKey := fun p _ _ _ _ => (p, false)
    OnCursorPosition := fun p _ _ => (p, false)
    OnMouseButton := fun p _ _ _ => (p, false) }

/-- A camera controller that moves the pose and reports a change on every
camera-motion event. -/
def cameraMove : ModelViewController :=
  { UpdateCamera := fun p _ _ => (p + 1, true)
    OnKey := fun p _ _ _ _ => (p + 1, true)
    OnCursorPosition := fun p _ _ => (p + 1, true)
    OnMouseButton := fun p _ _ _ => (p + 1, true) }

/-- A benchmark-mode state with an effectively unlimited scene time budget and
a nonzero sample budget (so no scene advance occurs). -/
def benchState : RayTracerState :=
  { baseState with
    userSettings := { baseSettings with Benchmark := true, BenchmarkMaxTime := 1000000 }
    numberOfSamples := 1 }

/-- A benchmark-mode state with `BenchmarkMaxTime = 5` over the single-scene
registry, as in the spec's termination scenario. -/
def benchTimeoutState : RayTracerState :=
  { baseState with
    userSettings := { baseSettings with Benchmark := true, BenchmarkMaxTime := 5 }
    numberOfSamples := 1 }

/-- A state whose active scene differs from the requested scene index. -/
def sceneMismatchState : RayTracerState :=
  { baseState with sceneIndex := 5 }

/-- A state with a pending accumulation reset raised (e.g. by an input event)
and benchmark mode off. -/
def pendingResetState : RayTracerState :=
  { baseState with resetAccumulation := true }

/-- A benchmark-mode state in the middle of a measurement period (a nonzero
period frame count, so the warmup branch is skipped). -/
def benchMidState : RayTracerState :=
  { benchState with periodTotalFrames := 3, time := 4 }

/-- A mid-period benchmark state whose sample budget has reached zero (the
converged state that triggers a scene advance). -/
def benchConvergedState : RayTracerState :=
  { benchMidState with numberOfSamples := 0 }

/-! ### Helper lemmas -/

theorem resetCheck_userSettings (s : RayTracerState) :
    (resetCheck s).userSettings = s.userSettings := by
  unfold resetCheck
  split <;> rfl

theorem resetCheck_total_le (s : RayTracerState) :
    (resetCheck s).totalNumberOfSamples ≤ s.totalNumberOfSamples := by
  unfold resetCheck
  split
  · exact Nat.zero_le _
  · exact Nat.le_refl _

theorem resetCheck_flag_false (s : RayTracerState) :
    (resetCheck s).resetAccumulation = false := by
  unfold resetCheck
  split
  · rfl
  · rename_i h
    simp only [Bool.or_eq_true, not_or, Bool.not_eq_true] at h
    exact h.1.1

theorem usub32_of_le {a b : ℕ} (hba : b ≤ a) (ha : a < 2 ^ 32) :
    usub32 a b = a - b := by
  unfold usub32
  rw [Nat.sub_add_comm hba, Nat.add_mod_right]
  exact Nat.mod_eq_of_lt (lt_of_le_of_lt (Nat.sub_le a b) ha)

/-! ### C8: scene-change teardown/rebuild sequence -/

/-- C8: whenever the active scene index differs from the settings' requested
scene index at the start of a frame (and the requested index is in registry
bounds, so the load succeeds), the frame performs exactly, in strict order:
device-idle wait, swapchain teardown, acceleration-structure teardown, scene
load, acceleration-structure rebuild, swapchain rebuild — so the device-idle
wait is the first event and precedes every teardown. -/
theorem drawFrame_sceneChange_sequence (registry : List SceneEntry) (s : RayTracerState)
    (hmis : s.sceneIndex ≠ uint32OfInt s.userSettings.SceneIndex)
    (hin : uint32OfInt s.userSettings.SceneIndex < registry.length) :
    ∃ s', drawFrame registry s =
      .ok (s', [FrameEvent.waitIdle, FrameEvent.deleteSwapChain,
        FrameEvent.deleteAccelerationStructures, FrameEvent.loadScene,
        FrameEvent.createAccelerationStructures, FrameEvent.createSwapChain]) := by
  obtain ⟨e, he⟩ : ∃ e, registry.get? (uint32OfInt s.userSettings.SceneIndex) = some e := by
    rw [List.get?_eq_get hin]
    exact ⟨_, rfl⟩
  unfold drawFrame loadScene
  rw [if_pos hmis, he]
  exact ⟨_, rfl⟩

/-- Witness for C8 at a concrete mismatching state over the one-scene registry. -/
theorem drawFrame_sceneChange_sequence_witness :
    (sceneMismatchState.sceneIndex ≠ uint32OfInt sceneMismatchState.userSettings.SceneIndex ∧
      uint32OfInt sceneMismatchState.userSettings.SceneIndex < baseRegistry.length) ∧
    ∃ s', drawFrame baseRegistry sceneMismatchState =
      .ok (s', [FrameEvent.waitIdle, FrameEvent.deleteSwapChain,
        FrameEvent.deleteAccelerationStructures, FrameEvent.loadScene,
        FrameEvent.createAccelerationStructures, FrameEvent.createSwapChain]) :=
  ⟨⟨by decide, by decide⟩,
    drawFrame_sceneChange_sequence baseRegistry sceneMismatchState (by decide) (by decide)⟩

/-! ### C9: out-of-bounds scene load is fatal with no partial mutation -/

/-- C9: for every scene index outside the registry bounds, `LoadScene` hits
its fatal error on the very first operation (the registry access), so the
abort state is exactly the input state: the owned scene handle, the active
scene index, the camera initial state and the render settings are all
untouched. -/
theorem loadScene_out_of_bounds_fatal (registry : List SceneEntry) (s : RayTracerState)
    (i : ℕ) (h : registry.length ≤ i) :
    loadScene registry s i = .error s := by
  unfold loadScene
  rw [List.get?_eq_none.mpr h]

/-- Witness for C9: index 7 against the one-scene registry. -/
theorem loadScene_out_of_bounds_fatal_witness :
    baseRegistry.length ≤ 7 ∧ loadScene baseRegistry baseState 7 = .error baseState :=
  ⟨by decide, loadScene_out_of_bounds_fatal baseRegistry baseState 7 (by decide)⟩

/-! ### C10: scene-change frames skip accumulation and rendering -/

/-- C10: on a frame where a scene change is detected (with the requested index
in bounds), the frame driver returns right after the teardown/reload/rebuild
sequence: the sample counters and the previous-settings snapshot are unchanged
and no `Application::DrawFrame` delegation happens (no `appDrawFrame` event in
the trace). -/
theorem drawFrame_sceneChange_skips_accumulation (registry : List SceneEntry)
    (s : RayTracerState)
    (hmis : s.sceneIndex ≠ uint32OfInt s.userSettings.SceneIndex)
    (hin : uint32OfInt s.userSettings.SceneIndex < registry.length) :
    ∃ s' tr, drawFrame registry s = .ok (s', tr) ∧
      s'.totalNumberOfSamples = s.totalNumberOfSamples ∧
      s'.numberOfSamples = s.numberOfSamples ∧
      s'.previousSettings = s.previousSettings ∧
      FrameEvent.appDrawFrame ∉ tr := by
  obtain ⟨e, he⟩ : ∃ e, registry.get? (uint32OfInt s.userSettings.SceneIndex) = some e := by
    rw [List.get?_eq_get hin]
    exact ⟨_, rfl⟩
  unfold drawFrame loadScene
  rw [if_pos hmis, he]
  refine ⟨_, _, rfl, ?_, ?_, ?_, ?_⟩ <;> simp [createSwapChain]

/-- Witness for C10 at a concrete mismatching state over the one-scene registry. -/
theorem drawFrame_sceneChange_skips_accumulation_witness :
    (sceneMismatchState.sceneIndex ≠ uint32OfInt sceneMismatchState.userSettings.SceneIndex ∧
      uint32OfInt sceneMismatchState.userSettings.SceneIndex < baseRegistry.length) ∧
    ∃ s' tr, drawFrame baseRegistry sceneMismatchState = .ok (s', tr) ∧
      s'.totalNumberOfSamples = sceneMismatchState.totalNumberOfSamples ∧
      s'.numberOfSamples = sceneMismatchState.numberOfSamples ∧
      s'.previousSettings = sceneMismatchState.previousSettings ∧
      FrameEvent.appDrawFrame ∉ tr :=
  ⟨⟨by decide, by decide⟩,
    drawFrame_sceneChange_skips_accumulation baseRegistry sceneMismatchState
      (by decide) (by decide)⟩

/-! ### C1: per-frame sample budget and the convergence scenario -/

/-- C1: on every frame that is not a scene-change frame, after the reset check
the budget is `numberOfSamples = clamp(MaxNumberOfSamples -
totalNumberOfSamples, 0, NumberOfSamples)` (in the code's `uint32_t`
arithmetic) and `totalNumberOfSamples` is incremented by it; and concretely,
starting from 0 accumulated samples with a maximum of 100 and 10 samples per
frame, after 10 frames with no resets the total is 100 and every subsequent
frame's budget is 0 (with the total staying at 100). -/
theorem drawFrame_sampleBudget_and_convergence (registry : List SceneEntry)
    (s : RayTracerState) (h : s.sceneIndex = uint32OfInt s.userSettings.SceneIndex) :
    (∃ s', drawFrame registry s = .ok (s', [FrameEvent.appDrawFrame]) ∧
      s'.numberOfSamples =
        glmClamp (usub32 s.userSettings.MaxNumberOfSamples
          (resetCheck s).totalNumberOfSamples) 0 s.userSettings.NumberOfSamples ∧
      s'.totalNumberOfSamples =
        ((resetCheck s).totalNumberOfSamples + s'.numberOfSamples) % 2 ^ 32) ∧
    ((drawFrameStep baseRegistry)^[10] baseState).totalNumberOfSamples = 100 ∧
    (∀ k : ℕ, ((drawFrameStep baseRegistry)^[11 + k] baseState).numberOfSamples = 0 ∧
      ((drawFrameStep baseRegistry)^[11 + k] baseState).totalNumberOfSamples = 100) := by
  refine ⟨?_, by decide, ?_⟩
  · unfold drawFrame
    rw [if_neg (by simp [h])]
    exact ⟨_, rfl, by simp [sampleBudget, snapshotSettings, resetCheck_userSettings],
      by simp [sampleBudget, snapshotSettings, resetCheck_userSettings]⟩
  · intro k
    have hfix : drawFrameStep baseRegistry ((drawFrameStep baseRegistry)^[11] baseState) =
        (drawFrameStep baseRegistry)^[11] baseState := by decide
    have hiter : (drawFrameStep baseRegistry)^[11 + k] baseState =
        (drawFrameStep baseRegistry)^[11] baseState := by
      rw [Nat.add_comm, Function.iterate_add_apply, Function.iterate_fixed hfix]
    rw [hiter]
    exact ⟨by decide, by decide⟩

/-- Witness for C1's general part at the baseline state. -/
theorem drawFrame_sampleBudget_and_convergence_witness :
    baseState.sceneIndex = uint32OfInt baseState.userSettings.SceneIndex ∧
    (∃ s', drawFrame baseRegistry baseState = .ok (s', [FrameEvent.appDrawFrame]) ∧
      s'.numberOfSamples =
        glmClamp (usub32 baseState.userSettings.MaxNumberOfSamples
          (resetCheck baseState).totalNumberOfSamples) 0
          baseState.userSettings.NumberOfSamples ∧
      s'.totalNumberOfSamples =
        ((resetCheck baseState).totalNumberOfSamples + s'.numberOfSamples) % 2 ^ 32) :=
  ⟨by decide,
    (drawFrame_sampleBudget_and_convergence baseRegistry baseState (by decide)).1⟩

/-! ### C2: the accumulation bound fails under mid-epoch settings mutation -/

/-- C2 counterexample: with 100 samples already accumulated and
`MaxNumberOfSamples` lowered to 50 mid-epoch (a change that triggers no
reset), the next frame's `uint32_t` subtraction wraps around: the frame takes
10 samples even though the claimed bound `samplesThisFrame ≤ maxTotalSamples -
totalSamples` would require at most `50 - 100 < 0`, and the total afterwards
is 110 > 50, violating `totalSamples ≤ maxTotalSamples`. -/
theorem accumulation_invariant_counterexample :
    loweredMaxState.userSettings.MaxNumberOfSamples = 50 ∧
    loweredMaxState.totalNumberOfSamples = 100 ∧
    (resetCheck loweredMaxState).totalNumberOfSamples = 100 ∧
    (drawFrameStep baseRegistry loweredMaxState).numberOfSamples = 10 ∧
    ¬(((drawFrameStep baseRegistry loweredMaxState).numberOfSamples : ℤ) ≤
        ((loweredMaxState.userSettings.MaxNumberOfSamples : ℤ) -
          (loweredMaxState.totalNumberOfSamples : ℤ))) ∧
    (drawFrameStep baseRegistry loweredMaxState).totalNumberOfSamples = 110 ∧
    ¬((drawFrameStep baseRegistry loweredMaxState).totalNumberOfSamples ≤
        loweredMaxState.userSettings.MaxNumberOfSamples) := by
  decide

/-- C2 as amended: provided the accumulated total does not exceed
`MaxNumberOfSamples` when the budget is computed (i.e. the maximum was not
lowered below the total mid-epoch) and the maximum fits in `uint32_t`, the
counters do satisfy `0 ≤ samplesThisFrame ≤ maxTotalSamples − totalSamples`
before the increment and `totalSamples ≤ maxTotalSamples` after it. -/
theorem accumulation_invariant_of_le_max (registry : List SceneEntry)
    (s : RayTracerState)
    (hscene : s.sceneIndex = uint32OfInt s.userSettings.SceneIndex)
    (hmax : s.userSettings.MaxNumberOfSamples < 2 ^ 32)
    (hle : s.totalNumberOfSamples ≤ s.userSettings.MaxNumberOfSamples) :
    ∃ s', drawFrame registry s = .ok (s', [FrameEvent.appDrawFrame]) ∧
      ((s'.numberOfSamples : ℤ) ≤ (s.userSettings.MaxNumberOfSamples : ℤ) -
        ((resetCheck s).totalNumberOfSamples : ℤ)) ∧
      s'.totalNumberOfSamples = (resetCheck s).totalNumberOfSamples + s'.numberOfSamples ∧
      s'.totalNumberOfSamples ≤ s.userSettings.MaxNumberOfSamples := by
  have ht1 : (resetCheck s).totalNumberOfSamples ≤ s.userSettings.MaxNumberOfSamples :=
    le_trans (resetCheck_total_le s) hle
  have husub : usub32 s.userSettings.MaxNumberOfSamples (resetCheck s).totalNumberOfSamples =
      s.userSettings.MaxNumberOfSamples - (resetCheck s).totalNumberOfSamples :=
    usub32_of_le ht1 hmax
  have hnle : glmClamp (usub32 s.userSettings.MaxNumberOfSamples
        (resetCheck s).totalNumberOfSamples) 0 s.userSettings.NumberOfSamples ≤
      s.userSettings.MaxNumberOfSamples - (resetCheck s).totalNumberOfSamples := by
    rw [husub]
    exact min_le_of_left_le (le_of_eq (Nat.max_eq_left (Nat.zero_le _)))
  unfold drawFrame
  rw [if_neg (by simp [hscene])]
  have hn : (sampleBudget (snapshotSettings (resetCheck s))).numberOfSamples =
      glmClamp (usub32 s.userSettings.MaxNumberOfSamples
        (resetCheck s).totalNumberOfSamples) 0 s.userSettings.NumberOfSamples := by
    simp [sampleBudget, snapshotSettings, resetCheck_userSettings]
  have htot : (sampleBudget (snapshotSettings (resetCheck s))).totalNumberOfSamples =
      ((resetCheck s).totalNumberOfSamples +
        (sampleBudget (snapshotSettings (resetCheck s))).numberOfSamples) % 2 ^ 32 := by
    simp [sampleBudget, snapshotSettings, resetCheck_userSettings]
  have hsum : (resetCheck s).totalNumberOfSamples +
      (sampleBudget (snapshotSettings (resetCheck s))).numberOfSamples ≤
      s.userSettings.MaxNumberOfSamples := by
    rw [hn]
    omega
  refine ⟨_, rfl, ?_, ?_, ?_⟩
  · rw [hn]
    have := hnle
    omega
  · rw [htot]
    exact Nat.mod_eq_of_lt (lt_of_le_of_lt hsum hmax)
  · rw [htot, Nat.mod_eq_of_lt (lt_of_le_of_lt hsum hmax)]
    exact hsum

/-- Witness for the amended C2 at the baseline state. -/
theorem accumulation_invariant_of_le_max_witness :
    (baseState.sceneIndex = uint32OfInt baseState.userSettings.SceneIndex ∧
      baseState.userSettings.MaxNumberOfSamples < 2 ^ 32 ∧
      baseState.totalNumberOfSamples ≤ baseState.userSettings.MaxNumberOfSamples) ∧
    ∃ s', drawFrame baseRegistry baseState = .ok (s', [FrameEvent.appDrawFrame]) ∧
      ((s'.numberOfSamples : ℤ) ≤ (baseState.userSettings.MaxNumberOfSamples : ℤ) -
        ((resetCheck baseState).totalNumberOfSamples : ℤ)) ∧
      s'.totalNumberOfSamples =
        (resetCheck baseState).totalNumberOfSamples + s'.numberOfSamples ∧
      s'.totalNumberOfSamples ≤ baseState.userSettings.MaxNumberOfSamples :=
  ⟨⟨by decide, by decide, by decide⟩,
    accumulation_invariant_of_le_max baseRegistry baseState (by decide) (by decide) (by decide)⟩

/-! ### C3: the reset condition zeroes the total, and only it does -/

/-- C3: on a frame's reset check, the accumulated total is zeroed exactly when
the force-reset flag is up, an image-affecting settings field changed since
the snapshot, or the accumulate flag is off (consuming the force-reset flag);
with no condition holding the state passes through unchanged.  Both sources of
the force-reset flag set it: swapchain recreation and every successful scene
load. -/
theorem resetCheck_zero_iff_reset_condition (s : RayTracerState) :
    ((s.resetAccumulation ||
        s.userSettings.RequiresAccumulationReset s.previousSettings ||
        !s.userSettings.AccumulateRays) = true →
      (resetCheck s).totalNumberOfSamples = 0 ∧ (resetCheck s).resetAccumulation = false) ∧
    ((s.resetAccumulation ||
        s.userSettings.RequiresAccumulationReset s.previousSettings ||
        !s.userSettings.AccumulateRays) = false →
      resetCheck s = s) ∧
    (createSwapChain s).resetAccumulation = true ∧
    (∀ (registry : List SceneEntry) (i : ℕ) (s' : RayTracerState),
      loadScene registry s i = .ok s' → s'.resetAccumulation = true) := by
  refine ⟨?_, ?_, rfl, ?_⟩
  · intro h
    unfold resetCheck
    rw [if_pos h]
    exact ⟨rfl, rfl⟩
  · intro h
    unfold resetCheck
    rw [if_neg (by simp [h])]
  · intro registry i s' h
    unfold loadScene at h
    cases hr : registry.get? i with
    | none => rw [hr] at h; cases h
    | some e => rw [hr] at h; cases h; rfl

/-- Witness for C3: a state with a pending force reset is zeroed; the baseline
state with no condition holding passes through unchanged. -/
theorem resetCheck_zero_iff_reset_condition_witness :
    ((pendingResetState.resetAccumulation ||
        pendingResetState.userSettings.RequiresAccumulationReset
          pendingResetState.previousSettings ||
        !pendingResetState.userSettings.AccumulateRays) = true ∧
      (resetCheck pendingResetState).totalNumberOfSamples = 0 ∧
      (resetCheck pendingResetState).resetAccumulation = false) ∧
    ((baseState.resetAccumulation ||
        baseState.userSettings.RequiresAccumulationReset baseState.previousSettings ||
        !baseState.userSettings.AccumulateRays) = false ∧
      resetCheck baseState = baseState) :=
  ⟨⟨by decide, (resetCheck_zero_iff_reset_condition pendingResetState).1 (by decide)⟩,
   ⟨by decide, (resetCheck_zero_iff_reset_condition baseState).2.1 (by decide)⟩⟩

/-! ### C4: the camera update and the reset flag -/

theorem checkAndUpdateBenchmarkState_resetAccumulation (registry : List SceneEntry)
    (p : ℚ) (s : RayTracerState) :
    (checkAndUpdateBenchmarkState registry p s).1.resetAccumulation = s.resetAccumulation := by
  unfold checkAndUpdateBenchmarkState
  split
  · rfl
  · dsimp only
    split <;> split <;> split <;> rfl

/-- C4 counterexample: `Render` assigns the camera controller's pose-changed
output to the reset flag instead of OR-ing it in — at a state with a pending
reset raised and a camera update reporting no change, the flag after the
camera-update step is `false`, not `true OR false`. -/
theorem render_overwrites_reset_flag_counterexample :
    pendingResetState.resetAccumulation = true ∧
    (cameraStill.UpdateCamera pendingResetState.cameraPose 10
      ((1 : ℚ) - pendingResetState.time)).2 = false ∧
    (render cameraStill baseRegistry 1 pendingResetState).1.resetAccumulation = false := by
  refine ⟨rfl, rfl, ?_⟩
  simp [render, checkAndUpdateBenchmarkState, pendingResetState, baseState, baseSettings,
    cameraStill]

/-- C4 as amended: `Render` overwrites the reset flag with the camera
controller's pose-changed output; since the frame driver's reset check always
leaves the flag `false` before `Render` runs, at every reachable call the
overwrite coincides with OR-ing into the flag, and the benchmark bookkeeping
afterwards never touches it. -/
theorem render_reset_flag_or_of_cleared (cb : ModelViewController)
    (registry : List SceneEntry) (t : ℚ) (s : RayTracerState)
    (h : s.resetAccumulation = false) :
    (render cb registry t s).1.resetAccumulation =
      (s.resetAccumulation || (cb.UpdateCamera s.cameraPose 10 (t - s.time)).2) ∧
    ∀ s' : RayTracerState, (resetCheck s').resetAccumulation = false := by
  constructor
  · rw [h, Bool.false_or]
    unfold render
    dsimp only
    rw [checkAndUpdateBenchmarkState_resetAccumulation]
  · exact resetCheck_flag_false

/-- Witness for the amended C4 at the baseline state with a pose-changing
camera update. -/
theorem render_reset_flag_or_of_cleared_witness :
    baseState.resetAccumulation = false ∧
    (render cameraMove baseRegistry 1 baseState).1.resetAccumulation =
      (baseState.resetAccumulation ||
        (cameraMove.UpdateCamera baseState.cameraPose 10 ((1 : ℚ) - baseState.time)).2) :=
  ⟨rfl, (render_reset_flag_or_of_cleared cameraMove baseRegistry 1 baseState rfl).1⟩

/-! ### C5: which input events are ignored -/

/-- C5 counterexample: a key event delivered during benchmark mode (with no UI
keyboard focus) is NOT ignored — `OnKey` still forwards it to the camera
controller, so the pose changes and the pose-changed output is OR-ed into the
reset flag. -/
theorem onKey_benchmark_not_ignored_counterexample :
    benchState.userSettings.Benchmark = true ∧
    benchState.resetAccumulation = false ∧
    (onKey cameraMove false 87 0 GLFW_PRESS 0 benchState).1.resetAccumulation = true ∧
    (onKey cameraMove false 87 0 GLFW_PRESS 0 benchState).1.cameraPose ≠
      benchState.cameraPose := by
  decide

/-- C5 as amended: cursor-position events are ignored while benchmark mode is
active or the UI claims keyboard or mouse focus; mouse-button events are
ignored while benchmark mode is active or the UI claims mouse focus; key
events are ignored only while the UI claims keyboard focus (benchmark mode
merely disables the settings toggle switches, not the camera motions or
Escape). -/
theorem input_handlers_ignore_guards :
    (∀ (cb : ModelViewController) (wk wm : Bool) (x y : ℚ) (s : RayTracerState),
      (s.userSettings.Benchmark || wk || wm) = true →
      onCursorPosition cb wk wm x y s = s) ∧
    (∀ (cb : ModelViewController) (wm : Bool) (b a m : ℤ) (s : RayTracerState),
      (s.userSettings.Benchmark || wm) = true →
      onMouseButton cb wm b a m s = s) ∧
    (∀ (cb : ModelViewController) (k sc a m : ℤ) (s : RayTracerState),
      onKey cb true k sc a m s = (s, false)) := by
  refine ⟨?_, ?_, ?_⟩
  · intro cb wk wm x y s h
    simp [onCursorPosition, h]
  · intro cb wm b a m s h
    simp [onMouseButton, h]
  · intro cb k sc a m s
    simp [onKey]

/-- Witness for the amended C5: each guard exercised at the benchmark state
with a pose-changing camera controller. -/
theorem input_handlers_ignore_guards_witness :
    ((benchState.userSettings.Benchmark || false || false) = true ∧
      onCursorPosition cameraMove false false 1 2 benchState = benchState) ∧
    ((benchState.userSettings.Benchmark || false) = true ∧
      onMouseButton cameraMove false 0 1 0 benchState = benchState) ∧
    onKey cameraMove true 87 0 GLFW_PRESS 0 benchState = (benchState, false) :=
  ⟨⟨by decide, input_handlers_ignore_guards.1 cameraMove false false 1 2 benchState (by decide)⟩,
   ⟨by decide, input_handlers_ignore_guards.2.1 cameraMove false 0 1 0 benchState (by decide)⟩,
   input_handlers_ignore_guards.2.2 cameraMove 87 0 GLFW_PRESS 0 benchState⟩

/-! ### C6: benchmark period reporting -/

theorem five_le_of_uint64_ne {pI p t : ℚ} (h0 : pI ≤ p) (hpt : p ≤ t)
    (hne : uint64OfRat ((p - pI) / 5) ≠ uint64OfRat ((t - pI) / 5)) :
    5 ≤ t - pI := by
  have ha : (0 : ℚ) ≤ (p - pI) / 5 := div_nonneg (by linarith) (by norm_num)
  have hab : (p - pI) / 5 ≤ (t - pI) / 5 := by
    apply div_le_div_of_nonneg_right (by linarith) (by norm_num)
  have hfab : ⌊(p - pI) / 5⌋ ≤ ⌊(t - pI) / 5⌋ := Int.floor_le_floor hab
  have hfa : 0 ≤ ⌊(p - pI) / 5⌋ := Int.floor_nonneg.mpr ha
  have hne' : ⌊(p - pI) / 5⌋ ≠ ⌊(t - pI) / 5⌋ := by
    intro he
    exact hne (by unfold uint64OfRat; rw [he])
  have h1 : (1 : ℤ) ≤ ⌊(t - pI) / 5⌋ := by omega
  have h2 : (1 : ℚ) ≤ (t - pI) / 5 := by exact_mod_cast Int.le_floor.mp h1
  have h3 := (one_le_div (by norm_num : (0 : ℚ) < 5)).mp h2
  linarith

theorem checkAndUpdateBenchmarkState_reported (registry : List SceneEntry) (p : ℚ)
    (s : RayTracerState) (hB : s.userSettings.Benchmark = true)
    (hf : s.periodTotalFrames ≠ 0) :
    (checkAndUpdateBenchmarkState registry p s).2.reported =
      (uint64OfRat ((p - s.periodInitialTime) / 5) !=
        uint64OfRat ((s.time - s.periodInitialTime) / 5)) := by
  have hbne : (s.periodTotalFrames != 0) = true := by simpa using hf
  unfold checkAndUpdateBenchmarkState
  rw [hB]
  dsimp only [Bool.not_true]
  rw [if_neg (by simp), if_neg hf]
  simp only [hbne, Bool.true_and]
  split <;> split <;> rfl

theorem checkAndUpdateBenchmarkState_mid (registry : List SceneEntry) (p : ℚ)
    (s : RayTracerState) (hB : s.userSettings.Benchmark = true)
    (hf : s.periodTotalFrames ≠ 0) :
    (checkAndUpdateBenchmarkState registry p s).1.time = s.time ∧
    (checkAndUpdateBenchmarkState registry p s).1.userSettings.Benchmark = true ∧
    (checkAndUpdateBenchmarkState registry p s).1.periodTotalFrames ≠ 0 ∧
    (checkAndUpdateBenchmarkState registry p s).1.periodInitialTime =
      (if (checkAndUpdateBenchmarkState registry p s).2.reported then s.time
        else s.periodInitialTime) := by
  unfold checkAndUpdateBenchmarkState
  rw [hB]
  dsimp only [Bool.not_true]
  rw [if_neg (by simp), if_neg hf]
  split <;> split <;> simp_all

theorem checkAndUpdateBenchmarkState_warmup (registry : List SceneEntry) (p : ℚ)
    (s : RayTracerState) (hB : s.userSettings.Benchmark = true)
    (h0 : s.periodTotalFrames = 0) :
    (checkAndUpdateBenchmarkState registry p s).2.reported = false ∧
    (checkAndUpdateBenchmarkState registry p s).1.time = s.time ∧
    (checkAndUpdateBenchmarkState registry p s).1.userSettings.Benchmark = true ∧
    (checkAndUpdateBenchmarkState registry p s).1.periodTotalFrames ≠ 0 ∧
    (checkAndUpdateBenchmarkState registry p s).1.periodInitialTime = s.time := by
  unfold checkAndUpdateBenchmarkState
  rw [hB]
  dsimp only [Bool.not_true]
  rw [if_neg (by simp), if_pos h0]
  dsimp only
  simp only [h0]
  split <;> split <;> simp_all

/-- Each report consumes at least one full period: over any monotone tail of
frame timestamps starting from a mid-period state, five times the number of
reports is bounded by the elapsed time since the period start. -/
theorem benchRun_reports_mul_five_le (registry : List SceneEntry) (ts : List ℚ) :
    ∀ s : RayTracerState, s.userSettings.Benchmark = true → s.periodTotalFrames ≠ 0 →
      s.periodInitialTime ≤ s.time → List.Chain (· ≤ ·) s.time ts →
      ((benchRun registry s ts).2.1 : ℚ) * 5 ≤ ts.getLastD s.time - s.periodInitialTime := by
  induction ts with
  | nil =>
    intro s _ _ hpi _
    simp only [benchRun, List.getLastD, Nat.cast_zero, zero_mul]
    linarith
  | cons t ts ih =>
    intro s hB hf hpi hchain
    rw [List.chain_cons] at hchain
    obtain ⟨hst, hchain'⟩ := hchain
    have hkey := checkAndUpdateBenchmarkState_mid registry s.time { s with time := t } hB hf
    have hrep := checkAndUpdateBenchmarkState_reported registry s.time { s with time := t } hB hf
    dsimp only at hkey hrep
    set r := checkAndUpdateBenchmarkState registry s.time { s with time := t } with hr
    obtain ⟨htime, hB', hf', hpi'⟩ := hkey
    have hrun : (benchRun registry s (t :: ts)).2.1 =
        (if r.2.reported then 1 else 0) + (benchRun registry r.1 ts).2.1 := rfl
    have hlast : (t :: ts).getLastD s.time = ts.getLastD t := List.getLastD_cons ..
    rw [hrun, hlast]
    cases hR : r.2.reported with
    | true =>
      rw [hR] at hrep hpi'
      simp only [if_pos] at hpi'
      have hne : uint64OfRat ((s.time - s.periodInitialTime) / 5) ≠
          uint64OfRat ((t - s.periodInitialTime) / 5) := by
        have h := hrep.symm
        rw [bne_iff_ne] at h
        exact h
      have h5 : 5 ≤ t - s.periodInitialTime := five_le_of_uint64_ne hpi hst hne
      have hIH := ih r.1 hB' hf' (by rw [hpi', htime]) (by rw [htime]; exact hchain')
      rw [htime, hpi'] at hIH
      push_cast
      norm_num at hIH ⊢
      linarith
    | false =>
      rw [hR] at hpi'
      simp at hpi'
      have hIH := ih r.1 hB' hf' (by rw [hpi', htime]; linarith)
        (by rw [htime]; exact hchain')
      rw [htime, hpi'] at hIH
      push_cast
      norm_num at hIH ⊢
      linarith

/-- C6 counterexample: with arbitrary frame-time jitter the report count can
be far from `floor(N / P) ± 1`: two benchmark frames at times 0 and 100 span
`N = 100` time-units (`floor(N / 5) = 20`) yet emit exactly one report,
because a frame spanning many period boundaries reports once and restarts the
period window at its own timestamp. -/
theorem benchmark_report_count_jitter_counterexample :
    benchState.userSettings.Benchmark = true ∧
    benchState.periodTotalFrames = 0 ∧
    List.Chain (· ≤ ·) (0 : ℚ) [100] ∧
    (benchRun baseRegistry benchState [0, 100]).2.1 = 1 ∧
    ⌊(((100 : ℚ) - 0) / 5)⌋₊ = 20 ∧
    ¬(⌊(((100 : ℚ) - 0) / 5)⌋₊ - 1 ≤ (benchRun baseRegistry benchState [0, 100]).2.1 ∧
      (benchRun baseRegistry benchState [0, 100]).2.1 ≤ ⌊(((100 : ℚ) - 0) / 5)⌋₊ + 1) := by
  have hcount : (benchRun baseRegistry benchState [0, 100]).2.1 = 1 := by
    norm_num [benchRun, checkAndUpdateBenchmarkState, uint64OfRat, benchState, baseState,
      baseSettings, baseRegistry, sizeTOfInt, Int.toNat]
  have hfloor : ⌊(((100 : ℚ) - 0) / 5)⌋₊ = 20 := by norm_num
  refine ⟨rfl, rfl, List.Chain.cons (by decide) List.Chain.nil, hcount, hfloor, ?_⟩
  rw [hcount, hfloor]
  decide

/-- C6 as amended: the period-boundary test does compare the integer-divided
elapsed time of the previous frame against that of the current frame (so a
frame spanning a boundary reports exactly once however the frame times are
distributed), but since a report restarts the period window at the reporting
frame's own timestamp, the guarantee on the count over a run is one-sided:
after a benchmark run over monotone frame timestamps spanning `N` time-units,
the number of reports is at most `floor(N / 5)` — the two-sided
`floor(N / P) ± 1` of the claim does not hold under arbitrary jitter. -/
theorem benchmark_report_count_le_floor :
    (∀ (registry : List SceneEntry) (p : ℚ) (s : RayTracerState),
      s.userSettings.Benchmark = true → s.periodTotalFrames ≠ 0 →
      (checkAndUpdateBenchmarkState registry p s).2.reported =
        (uint64OfRat ((p - s.periodInitialTime) / 5) !=
          uint64OfRat ((s.time - s.periodInitialTime) / 5))) ∧
    (∀ (registry : List SceneEntry) (s : RayTracerState) (t0 : ℚ) (ts : List ℚ),
      s.userSettings.Benchmark = true → s.periodTotalFrames = 0 →
      List.Chain (· ≤ ·) t0 ts →
      (benchRun registry s (t0 :: ts)).2.1 ≤ ⌊(ts.getLastD t0 - t0) / 5⌋₊) := by
  constructor
  · exact checkAndUpdateBenchmarkState_reported
  · intro registry s t0 ts hB h0 hchain
    have hw := checkAndUpdateBenchmarkState_warmup registry s.time { s with time := t0 } hB h0
    dsimp only at hw
    set r := checkAndUpdateBenchmarkState registry s.time { s with time := t0 } with hr
    obtain ⟨hrep0, htime, hB', hf', hpi'⟩ := hw
    have hrun : (benchRun registry s (t0 :: ts)).2.1 =
        (if r.2.reported then 1 else 0) + (benchRun registry r.1 ts).2.1 := rfl
    have hbound := benchRun_reports_mul_five_le registry ts r.1 hB' hf'
      (by rw [hpi', htime]) (by rw [htime]; exact hchain)
    rw [htime, hpi'] at hbound
    rw [hrun, hrep0]
    simp only [Bool.false_eq_true, if_false, Nat.zero_add]
    apply Nat.le_floor
    rw [le_div_iff₀ (by norm_num : (0 : ℚ) < 5)]
    exact hbound

/-- Witness for the amended C6: the boundary test at a mid-period state, and
the count bound over a three-frame run. -/
theorem benchmark_report_count_le_floor_witness :
    (benchMidState.userSettings.Benchmark = true ∧ benchMidState.periodTotalFrames ≠ 0 ∧
      (checkAndUpdateBenchmarkState baseRegistry 3 benchMidState).2.reported =
        (uint64OfRat (((3 : ℚ) - benchMidState.periodInitialTime) / 5) !=
          uint64OfRat ((benchMidState.time - benchMidState.periodInitialTime) / 5))) ∧
    (benchState.userSettings.Benchmark = true ∧ benchState.periodTotalFrames = 0 ∧
      List.Chain (· ≤ ·) (0 : ℚ) [1, 2] ∧
      (benchRun baseRegistry benchState [0, 1, 2]).2.1 ≤
        ⌊(([1, 2] : List ℚ).getLastD 0 - 0) / 5⌋₊) :=
  ⟨⟨rfl, by decide,
      benchmark_report_count_le_floor.1 baseRegistry 3 benchMidState rfl (by decide)⟩,
   ⟨rfl, rfl, List.Chain.cons (by decide) (List.Chain.cons (by decide) List.Chain.nil),
      benchmark_report_count_le_floor.2 baseRegistry benchState 0 [1, 2] rfl rfl
        (List.Chain.cons (by decide) (List.Chain.cons (by decide) List.Chain.nil))⟩⟩

/-! ### C7: benchmark scene advance and termination -/

theorem checkAndUpdateBenchmarkState_advance (registry : List SceneEntry) (p : ℚ)
    (s : RayTracerState) (hB : s.userSettings.Benchmark = true)
    (hf : s.periodTotalFrames ≠ 0) :
    ((s.time - s.sceneInitialTime > s.userSettings.BenchmarkMaxTime ∨
        s.numberOfSamples = 0) →
      (checkAndUpdateBenchmarkState registry p s).1.userSettings.SceneIndex =
        s.userSettings.SceneIndex + 1 ∧
      (checkAndUpdateBenchmarkState registry p s).2.closeRequested =
        (!s.userSettings.BenchmarkNextScenes ||
          sizeTOfInt s.userSettings.SceneIndex == registry.length - 1)) ∧
    (¬(s.time - s.sceneInitialTime > s.userSettings.BenchmarkMaxTime ∨
        s.numberOfSamples = 0) →
      (checkAndUpdateBenchmarkState registry p s).1.userSettings.SceneIndex =
        s.userSettings.SceneIndex ∧
      (checkAndUpdateBenchmarkState registry p s).2.closeRequested = false) := by
  unfold checkAndUpdateBenchmarkState
  rw [hB]
  dsimp only [Bool.not_true]
  rw [if_neg (by simp), if_neg hf]
  constructor <;> intro h <;> split <;> split <;> simp_all <;> linarith [h.1]

/-- C7: whenever the benchmark controller's scene-advance condition fires (the
scene time limit is exceeded or the sample budget has reached zero), the
requested scene index is incremented by exactly one and window close is
requested exactly when advancing through all scenes is disabled or the current
scene is the last registry entry; on a frame where it does not fire, the index
is unchanged and no close is requested.  Concretely, in benchmark mode with
`BenchmarkMaxTime = 5`, a single scene and `BenchmarkNextScenes = false`,
frames at times 0, 3, 6 request window close exactly once, with the scene
index incremented exactly once. -/
theorem benchmark_scene_advance_close :
    (∀ (registry : List SceneEntry) (p : ℚ) (s : RayTracerState),
      s.userSettings.Benchmark = true →
      (((checkAndUpdateBenchmarkState registry p s).1.userSettings.SceneIndex =
          s.userSettings.SceneIndex + 1 ∧
        (checkAndUpdateBenchmarkState registry p s).2.closeRequested =
          (!s.userSettings.BenchmarkNextScenes ||
            sizeTOfInt s.userSettings.SceneIndex == registry.length - 1)) ∨
       ((checkAndUpdateBenchmarkState registry p s).1.userSettings.SceneIndex =
          s.userSettings.SceneIndex ∧
        (checkAndUpdateBenchmarkState registry p s).2.closeRequested = false))) ∧
    (∀ (registry : List SceneEntry) (p : ℚ) (s : RayTracerState),
      s.userSettings.Benchmark = true → s.periodTotalFrames ≠ 0 →
      (s.time - s.sceneInitialTime > s.userSettings.BenchmarkMaxTime ∨
          s.numberOfSamples = 0) →
      (checkAndUpdateBenchmarkState registry p s).1.userSettings.SceneIndex =
        s.userSettings.SceneIndex + 1 ∧
      (checkAndUpdateBenchmarkState registry p s).2.closeRequested =
        (!s.userSettings.BenchmarkNextScenes ||
          sizeTOfInt s.userSettings.SceneIndex == registry.length - 1)) ∧
    ((benchRun baseRegistry benchTimeoutState [0, 3, 6]).2.2 = 1 ∧
      (benchRun baseRegistry benchTimeoutState [0, 3, 6]).1.userSettings.SceneIndex =
        benchTimeoutState.userSettings.SceneIndex + 1) := by
  refine ⟨?_, ?_, ?_⟩
  · intro registry p s hB
    unfold checkAndUpdateBenchmarkState
    rw [hB]
    dsimp only [Bool.not_true]
    rw [if_neg (by simp)]
    split <;> split <;> split <;>
      first
        | exact Or.inl ⟨rfl, rfl⟩
        | exact Or.inr ⟨rfl, rfl⟩
  · intro registry p s hB hf htrig
    exact (checkAndUpdateBenchmarkState_advance registry p s hB hf).1 htrig
  · constructor <;>
      norm_num [benchRun, checkAndUpdateBenchmarkState, uint64OfRat, benchTimeoutState,
        baseState, baseSettings, baseRegistry, sizeTOfInt, Int.toNat]

/-- Witness for C7's general part at the benchmark state. -/
theorem benchmark_scene_advance_close_witness :
    benchState.userSettings.Benchmark = true ∧
    (((checkAndUpdateBenchmarkState baseRegistry 0 benchState).1.userSettings.SceneIndex =
        benchState.userSettings.SceneIndex + 1 ∧
      (checkAndUpdateBenchmarkState baseRegistry 0 benchState).2.closeRequested =
        (!benchState.userSettings.BenchmarkNextScenes ||
          sizeTOfInt benchState.userSettings.SceneIndex == baseRegistry.length - 1)) ∨
     ((checkAndUpdateBenchmarkState baseRegistry 0 benchState).1.userSettings.SceneIndex =
        benchState.userSettings.SceneIndex ∧
      (checkAndUpdateBenchmarkState baseRegistry 0 benchState).2.closeRequested = false)) ∧
    (benchConvergedState.userSettings.Benchmark = true ∧
      benchConvergedState.periodTotalFrames ≠ 0 ∧
      benchConvergedState.numberOfSamples = 0 ∧
      (checkAndUpdateBenchmarkState baseRegistry 0 benchConvergedState).1.userSettings.SceneIndex =
        benchConvergedState.userSettings.SceneIndex + 1 ∧
      (checkAndUpdateBenchmarkState baseRegistry 0 benchConvergedState).2.closeRequested =
        (!benchConvergedState.userSettings.BenchmarkNextScenes ||
          sizeTOfInt benchConvergedState.userSettings.SceneIndex == baseRegistry.length - 1)) :=
  ⟨rfl, benchmark_scene_advance_close.1 baseRegistry 0 benchState rfl,
    rfl, by decide, rfl,
    benchmark_scene_advance_close.2.1 baseRegistry 0 benchConvergedState rfl (by decide)
      (Or.inr rfl)⟩

end RayTracer
